import Mathlib

/-!
Shallow embedding of the instance/device/queue layer of the rpi-vk-driver
repository (src/driver/instance.c and src/driver/device.c), together with
theorems settling the frozen claims about it.

Pointers that only matter by identity are modelled as natural-number
addresses; NULL pointers as `none`.  The in/out count parameter of the
enumeration functions is modelled by its incoming value plus a flag saying
whether the output buffer is non-NULL; the function returns the value the
code stores back into the count cell, the list of items it writes into the
buffer, and the VkResult.  The C code reads the `uint32_t` count cell into
a C `int`, so the conversion to a signed 32-bit value is modelled
explicitly (`toInt32`).
-/

namespace RpiVK

/-- The result codes produced by this layer of the driver. -/
inductive VkResult where
  | VK_SUCCESS
  | VK_INCOMPLETE
  | VK_ERROR_OUT_OF_HOST_MEMORY
  | VK_ERROR_EXTENSION_NOT_PRESENT
  | VK_ERROR_FEATURE_NOT_PRESENT
  | VK_ERROR_TOO_MANY_OBJECTS
  deriving DecidableEq

/-- Value of a `uint32_t` after conversion to a 32-bit signed `int`
(`int arraySize = *pPropertyCount;` in the C code). -/
def toInt32 (n : Nat) : Int :=
  if n % 2 ^ 32 < 2 ^ 31 then ((n % 2 ^ 32 : Nat) : Int)
  else ((n % 2 ^ 32 : Nat) : Int) - 2 ^ 32

/-- Value of an `int` after being stored back into a `uint32_t` cell
(`*pPropertyCount = elementsWritten;`). -/
def toUInt32 (i : Int) : Nat := (i % 2 ^ 32).toNat

/-- Observable outcome of one count-then-fill enumeration call: the value
stored back into the count cell, the items written into the output buffer,
and the returned result code. -/
structure EnumOut (α : Type) where
  count : Nat
  written : List α
  result : VkResult
  deriving DecidableEq

/-- `vkEnumerateInstanceExtensionProperties` (src/driver/instance.c, lines
15-47), with the static registry `instanceExtensions` (declared in the
repository's common.h) passed in as a list of extension records. -/
def vkEnumerateInstanceExtensionProperties (instanceExtensions : List String)
    (pPropertyCount : Nat) (pPropertiesPresent : Bool) : EnumOut String :=
  if !pPropertiesPresent then
    { count := instanceExtensions.length, written := [], result := .VK_SUCCESS }
  else
    let numInstanceExtensions : Int := instanceExtensions.length
    let arraySize : Int := toInt32 pPropertyCount
    let elementsWritten : Int := min numInstanceExtensions arraySize
    { count := toUInt32 elementsWritten
      written := instanceExtensions.take elementsWritten.toNat
      result := if arraySize < numInstanceExtensions then .VK_INCOMPLETE else .VK_SUCCESS }

/-- `vkEnumerateDeviceExtensionProperties` (src/driver/device.c, lines
94-121), with the static registry `deviceExtensions` passed in.  Note that,
unlike its instance-level sibling, the source returns `VK_SUCCESS`
unconditionally on the non-NULL-buffer path. -/
def vkEnumerateDeviceExtensionProperties (deviceExtensions : List String)
    (pPropertyCount : Nat) (pPropertiesPresent : Bool) : EnumOut String :=
  if !pPropertiesPresent then
    { count := deviceExtensions.length, written := [], result := .VK_SUCCESS }
  else
    let numDeviceExtensions : Int := deviceExtensions.length
    let arraySize : Int := toInt32 pPropertyCount
    let elementsWritten : Int := min numDeviceExtensions arraySize
    { count := toUInt32 elementsWritten
      written := deviceExtensions.take elementsWritten.toNat
      result := .VK_SUCCESS }

/-- `vkEnumeratePhysicalDevices` (src/driver/device.c, lines 11-46).  The
one physical-device handle `&instance->dev` is identified by the owning
instance's address `instAddr`. -/
def vkEnumeratePhysicalDevices (instAddr : Nat)
    (pPhysicalDeviceCount : Nat) (pPhysicalDevicesPresent : Bool) : EnumOut Nat :=
  if !pPhysicalDevicesPresent then
    { count := 1, written := [], result := .VK_SUCCESS }
  else
    let numGPUs : Int := 1
    let arraySize : Int := toInt32 pPhysicalDeviceCount
    let elementsWritten : Int := min numGPUs arraySize
    { count := toUInt32 elementsWritten
      written := List.replicate elementsWritten.toNat instAddr
      result := if arraySize < numGPUs then .VK_INCOMPLETE else .VK_SUCCESS }

/-- One `VkPhysicalDeviceGroupProperties` entry as the source fills it in. -/
structure GroupProps where
  physicalDeviceCount : Nat
  physicalDevice0 : Nat
  subsetAllocation : Bool
  deriving DecidableEq

/-- `vkEnumeratePhysicalDeviceGroups` (src/driver/device.c, lines 340-369).
On the non-NULL-buffer path the source loop runs `c` over the whole incoming
capacity, fills every slot with the same single group, never stores back into
the count cell, and returns `VK_INCOMPLETE` exactly when the capacity is 0. -/
def vkEnumeratePhysicalDeviceGroups (instAddr : Nat)
    (pGroupCount : Nat) (pGroupsPresent : Bool) : EnumOut GroupProps :=
  if !pGroupsPresent then
    { count := 1, written := [], result := .VK_SUCCESS }
  else
    { count := pGroupCount
      written := List.replicate pGroupCount
        { physicalDeviceCount := 1, physicalDevice0 := instAddr, subsetAllocation := false }
      result := if pGroupCount < 1 then .VK_INCOMPLETE else .VK_SUCCESS }

/-- Modelled from the spec: `findInstanceExtension` is declared in the
repository's common.h (not under src/); per the spec's Extension/Feature
Registry it is a pure lookup into the static instance-extension table that
yields the extension's index, or -1 (here `none`) when the name is unknown
— exactly how its result is consumed in src/driver/instance.c. -/
def findInstanceExtension (registry : List String) (name : String) : Option Nat :=
  List.findIdx? (fun e => e == name) registry

/-- Modelled from the spec: `findDeviceExtension` is declared in the
repository's common.h (not under src/); per the spec it is the same pure
lookup as `findInstanceExtension` but into the static device-extension
table — exactly how its result is consumed in src/driver/device.c. -/
def findDeviceExtension (registry : List String) (name : String) : Option Nat :=
  List.findIdx? (fun e => e == name) registry

/-- The immutable capability snapshot the Capability Prober stores into a
new instance (chip version, tiling, optional feature flags). -/
structure Snapshot where
  chipVersion : Nat
  hasTiling : Bool
  hasControlFlow : Bool
  hasEtc1 : Bool
  hasThreadedFs : Bool
  hasMadvise : Bool
  deriving DecidableEq

/-- The `_instance` object as built by `vkCreateInstance`.  `devInst`
models the `dev.instance` back-pointer of the embedded physical device and
`snapshot` the probed hardware facts; both are `none` while the
corresponding fields have not been written yet. -/
structure InstanceObj where
  addr : Nat
  devInst : Option Nat
  numEnabledExtensions : Nat
  enabledExtensions : List Nat
  snapshot : Option Snapshot
  deriving DecidableEq

/-- The parts of `VkInstanceCreateInfo` the source reads. -/
structure InstanceCreateInfo where
  enabledLayerCount : Nat
  ppEnabledExtensionNames : List String
  deriving DecidableEq

/-- Observable outcome of a `vkCreateInstance` call that returned:
the result code, the value stored into `*pInstance` (`none` models the
NULL pointer stored when `ALLOCATE` fails), whether the hardware probe
(`openIoctl`/`vc4_*` queries) ran, and how many `ALLOCATE` calls were
made. -/
structure CreateInstanceOut where
  result : VkResult
  pInstance : Option InstanceObj
  probed : Bool
  allocCount : Nat
  deriving DecidableEq

/-- Outcome of a call into C code that may abort via a failed `assert`. -/
inductive COutcome (α : Type) where
  | aborted
  | ret (out : α)
  deriving DecidableEq

/-- The extension-validation loop of `vkCreateInstance`
(src/driver/instance.c, lines 83-95): indices of the names found so far, in
request order, stopping at the first unknown name; the boolean is false
exactly when the loop hit an unknown name. -/
def instExtLoop (registry : List String) : List String → List Nat × Bool
  | [] => ([], true)
  | e :: rest =>
    match findInstanceExtension registry e with
    | some i =>
      let p := instExtLoop registry rest
      (i :: p.1, p.2)
    | none => ([], false)

/-- `vkCreateInstance` (src/driver/instance.c, lines 57-117).  `allocOk`
models the success of the single `ALLOCATE` call, `instAddr` the address it
returns on success, `gpuPresent` the `access("/dev/dri/card0", F_OK)`
check, `ioctlOk` the `openIoctl()` result, and `snap` the values the
capability probe yields. -/
def vkCreateInstance (registry : List String) (allocOk : Bool) (instAddr : Nat)
    (gpuPresent : Bool) (ioctlOk : Bool) (snap : Snapshot)
    (info : InstanceCreateInfo) : COutcome CreateInstanceOut :=
  if !allocOk then
    .ret { result := .VK_ERROR_OUT_OF_HOST_MEMORY, pInstance := none
           probed := false, allocCount := 1 }
  else if info.enabledLayerCount ≠ 0 then
    .aborted
  else if !(instExtLoop registry info.ppEnabledExtensionNames).2 then
    .ret { result := .VK_ERROR_EXTENSION_NOT_PRESENT
           pInstance := some
             { addr := instAddr, devInst := none
               numEnabledExtensions := (instExtLoop registry info.ppEnabledExtensionNames).1.length
               enabledExtensions := (instExtLoop registry info.ppEnabledExtensionNames).1
               snapshot := none }
           probed := false, allocCount := 1 }
  else if !gpuPresent then
    .aborted
  else if !ioctlOk then
    .aborted
  else
    .ret { result := .VK_SUCCESS
           pInstance := some
             { addr := instAddr, devInst := some instAddr
               numEnabledExtensions := (instExtLoop registry info.ppEnabledExtensionNames).1.length
               enabledExtensions := (instExtLoop registry info.ppEnabledExtensionNames).1
               snapshot := some snap }
           probed := true, allocCount := 1 }

/-- A `VkPhysicalDevice` handle as seen by `vkCreateDevice` and
`vkGetDeviceProcAddr`: what the code dereferences from it is only its
`instance` back-pointer (`d->dev->instance`); `none` models NULL. -/
structure PhysicalDeviceRef where
  inst : Option Nat
  deriving DecidableEq

/-- One `_queue` record.  `dev` is the back-pointer to the owning
`_device`, identified by the device's address; `none` models the field not
having been written yet (device creation only writes `lastEmitSeqno`). -/
structure Queue where
  lastEmitSeqno : Nat
  dev : Option Nat
  deriving DecidableEq

/-- One slot of the `_device.queues` array: `none` is the NULL pointer the
creation code initialises every slot to, `some (a, qs)` an allocated queue
array at address `a` holding the records `qs`. -/
def QSlot : Type := Option (Nat × List Queue)

instance : DecidableEq QSlot := by
  unfold QSlot
  infer_instance

/-- The `_device` object as built by `vkCreateDevice`.  `queues` and
`numQueues` both have length `numQueueFamilies`; the contents of
`numQueues` start out as whatever garbage the allocation held, since the
source never initialises the entries of families that get no queue
request. -/
structure DeviceObj where
  addr : Nat
  dev : PhysicalDeviceRef
  numEnabledExtensions : Nat
  enabledExtensions : List Nat
  enabledFeatures : List Bool
  queues : List QSlot
  numQueues : List Nat
  deriving DecidableEq

/-- The parts of one `VkDeviceQueueCreateInfo` the source reads. -/
structure QueueCreateInfo where
  queueFamilyIndex : Nat
  queueCount : Nat
  deriving DecidableEq

/-- The parts of `VkDeviceCreateInfo` the source reads.  The feature
struct `VkPhysicalDeviceFeatures` is a block of `numFeatures` VkBool32
fields, which the source itself reads through a `VkBool32*`, so it is
modelled as a list of booleans. -/
structure DeviceCreateInfo where
  ppEnabledExtensionNames : List String
  pEnabledFeatures : Option (List Bool)
  pQueueCreateInfos : List QueueCreateInfo
  deriving DecidableEq

/-- Observable outcome of a `vkCreateDevice` call: result code, whether
`*pDevice` was written at all (the validation failures return before the
store), the value stored there, and how many `ALLOCATE` calls were made. -/
structure CreateDeviceOut where
  result : VkResult
  handleWritten : Bool
  pDevice : Option DeviceObj
  allocCount : Nat
  deriving DecidableEq

/-- Struct assignment of a `VkPhysicalDeviceFeatures` value: exactly
`numFeatures` VkBool32 fields are copied. -/
def copyFeatures (numFeatures : Nat) (req : List Bool) : List Bool :=
  (List.range numFeatures).map (fun c => req.getD c false)

/-- The feature-validation loop of `vkCreateDevice` (src/driver/device.c,
lines 215-221 and again 246-251): true when some feature index below
`numFeatures` is requested but unsupported. -/
def featureRequestBad (numFeatures : Nat) (req supported : List Bool) : Bool :=
  (List.range numFeatures).any (fun c => req.getD c false && !(supported.getD c false))

/-- The per-queue-family allocation loop of `vkCreateDevice`
(src/driver/device.c, lines 269-287), with the allocator modelled by
`allocOk` giving the success of the k-th `ALLOCATE` call of the whole
`vkCreateDevice` call (call 0 was the device object) and the address of a
successful call k being k itself.  On a failed allocation the source has
already stored the NULL into `queues[family]` and returns
`VK_ERROR_OUT_OF_HOST_MEMORY` without setting `numQueues[family]`.
Returns (result, device memory after the loop, total ALLOCATE calls). -/
def deviceQueueLoop (allocOk : Nat → Bool) :
    List QueueCreateInfo → DeviceObj → Nat → VkResult × DeviceObj × Nat
  | [], dev, k => (.VK_SUCCESS, dev, k)
  | qci :: rest, dev, k =>
    if !allocOk k then
      (.VK_ERROR_OUT_OF_HOST_MEMORY,
       { dev with queues := dev.queues.set qci.queueFamilyIndex none }, k + 1)
    else
      deviceQueueLoop allocOk rest
        { dev with
            queues := dev.queues.set qci.queueFamilyIndex
              (some (k, List.replicate qci.queueCount { lastEmitSeqno := 0, dev := none })),
            numQueues := dev.numQueues.set qci.queueFamilyIndex qci.queueCount }
        (k + 1)

/-- `vkCreateDevice` (src/driver/device.c, lines 189-290).  Static data
from common.h is passed in: the device-extension registry, `numFeatures`,
the supported feature block `_features` (read through a `VkBool32*` in the
source), and `numQueueFamilies`.  `numQueuesGarbage` is the uninitialised
content of the freshly allocated `numQueues` array (the source never
zeroes it), and `allocOk k` tells whether the k-th `ALLOCATE` call of this
invocation succeeds (call 0 is the `_device` object itself, which gets
address 0). -/
def vkCreateDevice (deviceExtensions : List String)
    (numFeatures : Nat) (supportedFeatures : List Bool)
    (numQueueFamilies : Nat) (numQueuesGarbage : List Nat) (allocOk : Nat → Bool)
    (physicalDevice : PhysicalDeviceRef) (info : DeviceCreateInfo) : CreateDeviceOut :=
  if !(info.ppEnabledExtensionNames.all
        (fun e => (findDeviceExtension deviceExtensions e).isSome)) then
    { result := .VK_ERROR_EXTENSION_NOT_PRESENT, handleWritten := false
      pDevice := none, allocCount := 0 }
  else if (match info.pEnabledFeatures with
           | some req => featureRequestBad numFeatures req supportedFeatures
           | none => false) then
    { result := .VK_ERROR_FEATURE_NOT_PRESENT, handleWritten := false
      pDevice := none, allocCount := 0 }
  else if !allocOk 0 then
    { result := .VK_ERROR_TOO_MANY_OBJECTS, handleWritten := true
      pDevice := none, allocCount := 1 }
  else
    -- device object allocated at address 0; extension indices re-filtered
    -- (unknown names silently skipped at this stage, per the source)
    let enabledIdx :=
      info.ppEnabledExtensionNames.filterMap (findDeviceExtension deviceExtensions)
    -- the dead second feature check (lines 244-252) sits between the
    -- extension re-filter and the feature-struct store
    if (match info.pEnabledFeatures with
        | some req => featureRequestBad numFeatures req supportedFeatures
        | none => false) then
      { result := .VK_ERROR_FEATURE_NOT_PRESENT, handleWritten := true
        pDevice := some
          { addr := 0, dev := physicalDevice
            numEnabledExtensions := enabledIdx.length, enabledExtensions := enabledIdx
            enabledFeatures := [], queues := [], numQueues := numQueuesGarbage }
        allocCount := 1 }
    else
      let r := deviceQueueLoop allocOk info.pQueueCreateInfos
        { addr := 0, dev := physicalDevice
          numEnabledExtensions := enabledIdx.length, enabledExtensions := enabledIdx
          enabledFeatures :=
            match info.pEnabledFeatures with
            | some req => copyFeatures numFeatures req
            | none => List.replicate numFeatures false
          queues := List.replicate numQueueFamilies none
          numQueues := numQueuesGarbage }
        1
      { result := r.1, handleWritten := true, pDevice := some r.2.1, allocCount := r.2.2 }

/-- `vkGetDeviceQueue` (src/driver/device.c, lines 297-311): under the
asserted preconditions it stores the device pointer into the queue
record's `dev` field and hands the record back; outside them the source
has undefined behaviour, modelled as `none`. -/
def vkGetDeviceQueue (numQueueFamilies : Nat) (device : DeviceObj)
    (queueFamilyIndex queueIndex : Nat) : Option Queue :=
  if queueFamilyIndex < numQueueFamilies ∧
     queueIndex < device.numQueues.getD queueFamilyIndex 0 then
    match device.queues.getD queueFamilyIndex none with
    | some (_, arr) =>
      (arr.get? queueIndex).map (fun q => { q with dev := some device.addr })
    | none => none
  else none

/-- What one `FREE` call of `vkDestroyDevice` released. -/
inductive FreeTarget where
  | queueArray (addr : Nat)
  | nullPtr
  | outOfBounds (idx : Nat)
  | deviceObject
  deriving DecidableEq

/-- `vkDestroyDevice` (src/driver/device.c, lines 319-335), as the
sequence of `FREE` calls it performs.  The source's inner loop is
`for(d = 0; d < dev->numQueues[c]; ++d) FREE(dev->queues[d]);` — note the
index `d`, not `c` — so for each family `c` it frees the slots
`queues[0] .. queues[numQueues[c]-1]`; an index `d` at or past
`numQueueFamilies` reads past the `queues` array (`outOfBounds`). -/
def vkDestroyDevice (numQueueFamilies : Nat) (dev : DeviceObj) : List FreeTarget :=
  ((List.range numQueueFamilies).flatMap (fun c =>
    (List.range (dev.numQueues.getD c 0)).map (fun d =>
      match dev.queues.get? d with
      | none => FreeTarget.outOfBounds d
      | some none => FreeTarget.nullPtr
      | some (some (a, _)) => FreeTarget.queueArray a)))
  ++ [FreeTarget.deviceObject]

/-- The four names `vkGetInstanceProcAddr` resolves even with a NULL
instance (src/driver/instance.c, lines 157-162). -/
def preInstanceNames : List String :=
  [ "vkEnumerateInstanceVersion"
  , "vkEnumerateInstanceExtensionProperties"
  , "vkEnumerateInstanceLayerProperties"
  , "vkCreateInstance" ]

/-- The full `RETFUNC` chain of `vkGetInstanceProcAddr`
(src/driver/instance.c, lines 167-331), in source order. -/
def instanceProcTable : List String :=
  [ "vkCreateInstance"
  , "vkEnumerateInstanceVersion"
  , "vkDestroyInstance"
  , "vkEnumeratePhysicalDevices"
  , "vkGetPhysicalDeviceFeatures"
  , "vkGetPhysicalDeviceFormatProperties"
  , "vkGetPhysicalDeviceImageFormatProperties"
  , "vkGetPhysicalDeviceProperties"
  , "vkGetPhysicalDeviceQueueFamilyProperties"
  , "vkGetPhysicalDeviceMemoryProperties"
  , "vkGetInstanceProcAddr"
  , "vkGetDeviceProcAddr"
  , "vkCreateDevice"
  , "vkDestroyDevice"
  , "vkEnumerateInstanceExtensionProperties"
  , "vkEnumerateDeviceExtensionProperties"
  , "vkEnumerateInstanceLayerProperties"
  , "vkEnumerateDeviceLayerProperties"
  , "vkGetDeviceQueue"
  , "vkQueueSubmit"
  , "vkQueueWaitIdle"
  , "vkDeviceWaitIdle"
  , "vkAllocateMemory"
  , "vkFreeMemory"
  , "vkMapMemory"
  , "vkUnmapMemory"
  , "vkFlushMappedMemoryRanges"
  , "vkInvalidateMappedMemoryRanges"
  , "vkGetDeviceMemoryCommitment"
  , "vkBindBufferMemory"
  , "vkBindImageMemory"
  , "vkGetBufferMemoryRequirements"
  , "vkGetImageMemoryRequirements"
  , "vkGetImageSparseMemoryRequirements"
  , "vkGetPhysicalDeviceSparseImageFormatProperties"
  , "vkQueueBindSparse"
  , "vkCreateFence"
  , "vkDestroyFence"
  , "vkResetFences"
  , "vkGetFenceStatus"
  , "vkWaitForFences"
  , "vkCreateSemaphore"
  , "vkDestroySemaphore"
  , "vkCreateEvent"
  , "vkDestroyEvent"
  , "vkGetEventStatus"
  , "vkSetEvent"
  , "vkResetEvent"
  , "vkCreateQueryPool"
  , "vkDestroyQueryPool"
  , "vkGetQueryPoolResults"
  , "vkCreateBuffer"
  , "vkDestroyBuffer"
  , "vkCreateBufferView"
  , "vkDestroyBufferView"
  , "vkCreateImage"
  , "vkDestroyImage"
  , "vkGetImageSubresourceLayout"
  , "vkCreateImageView"
  , "vkDestroyImageView"
  , "vkCreateShaderModule"
  , "vkDestroyShaderModule"
  , "vkCreatePipelineCache"
  , "vkDestroyPipelineCache"
  , "vkGetPipelineCacheData"
  , "vkMergePipelineCaches"
  , "vkCreateGraphicsPipelines"
  , "vkCreateComputePipelines"
  , "vkDestroyPipeline"
  , "vkCreatePipelineLayout"
  , "vkDestroyPipelineLayout"
  , "vkCreateSampler"
  , "vkDestroySampler"
  , "vkCreateDescriptorSetLayout"
  , "vkDestroyDescriptorSetLayout"
  , "vkCreateDescriptorPool"
  , "vkDestroyDescriptorPool"
  , "vkResetDescriptorPool"
  , "vkAllocateDescriptorSets"
  , "vkFreeDescriptorSets"
  , "vkUpdateDescriptorSets"
  , "vkCreateFramebuffer"
  , "vkDestroyFramebuffer"
  , "vkCreateRenderPass"
  , "vkDestroyRenderPass"
  , "vkGetRenderAreaGranularity"
  , "vkCreateCommandPool"
  , "vkDestroyCommandPool"
  , "vkResetCommandPool"
  , "vkAllocateCommandBuffers"
  , "vkFreeCommandBuffers"
  , "vkBeginCommandBuffer"
  , "vkEndCommandBuffer"
  , "vkResetCommandBuffer"
  , "vkCmdBindPipeline"
  , "vkCmdSetViewport"
  , "vkCmdSetScissor"
  , "vkCmdSetLineWidth"
  , "vkCmdSetDepthBias"
  , "vkCmdSetBlendConstants"
  , "vkCmdSetDepthBounds"
  , "vkCmdSetStencilCompareMask"
  , "vkCmdSetStencilWriteMask"
  , "vkCmdSetStencilReference"
  , "vkCmdBindDescriptorSets"
  , "vkCmdBindIndexBuffer"
  , "vkCmdBindVertexBuffers"
  , "vkCmdDraw"
  , "vkCmdDrawIndexed"
  , "vkCmdDrawIndirect"
  , "vkCmdDrawIndexedIndirect"
  , "vkCmdDispatch"
  , "vkCmdDispatchIndirect"
  , "vkCmdCopyBuffer"
  , "vkCmdCopyImage"
  , "vkCmdBlitImage"
  , "vkCmdCopyBufferToImage"
  , "vkCmdCopyImageToBuffer"
  , "vkCmdUpdateBuffer"
  , "vkCmdFillBuffer"
  , "vkCmdClearColorImage"
  , "vkCmdClearDepthStencilImage"
  , "vkCmdClearAttachments"
  , "vkCmdResolveImage"
  , "vkCmdSetEvent"
  , "vkCmdResetEvent"
  , "vkCmdWaitEvents"
  , "vkCmdPipelineBarrier"
  , "vkCmdBeginQuery"
  , "vkCmdEndQuery"
  , "vkCmdResetQueryPool"
  , "vkCmdWriteTimestamp"
  , "vkCmdCopyQueryPoolResults"
  , "vkCmdPushConstants"
  , "vkCmdBeginRenderPass"
  , "vkCmdNextSubpass"
  , "vkCmdEndRenderPass"
  , "vkCmdExecuteCommands"
  , "vkEnumeratePhysicalDeviceGroups"
  , "vkGetPhysicalDeviceFeatures2"
  , "vkGetPhysicalDeviceProperties2"
  , "vkGetPhysicalDeviceFormatProperties2"
  , "vkGetPhysicalDeviceImageFormatProperties2"
  , "vkGetPhysicalDeviceQueueFamilyProperties2"
  , "vkGetPhysicalDeviceMemoryProperties2"
  , "vkGetPhysicalDeviceSparseImageFormatProperties2"
  , "vkGetPhysicalDeviceExternalBufferProperties"
  , "vkGetPhysicalDeviceExternalFenceProperties"
  , "vkGetPhysicalDeviceExternalSemaphoreProperties"
  , "vkBindImageMemory2"
  , "vkGetDeviceGroupPeerMemoryFeatures"
  , "vkCmdSetDeviceMask"
  , "vkCmdDispatchBase"
  , "vkGetImageMemoryRequirements2"
  , "vkGetBufferMemoryRequirements2"
  , "vkGetImageSparseMemoryRequirements2"
  , "vkTrimCommandPool"
  , "vkGetDeviceQueue2"
  , "vkCreateSamplerYcbcrConversion"
  , "vkDestroySamplerYcbcrConversion"
  , "vkCreateDescriptorUpdateTemplate"
  , "vkDestroyDescriptorUpdateTemplate"
  , "vkUpdateDescriptorSetWithTemplate"
  , "vkGetDescriptorSetLayoutSupport"
  , "vkBindBufferMemory2" ]

/-- `vkGetInstanceProcAddr` (src/driver/instance.c, lines 150-335).  A
resolved pointer is identified by the name of the function it points to
(`RETFUNC(f)` returns exactly the function named `f`); `none` is the NULL
return.  The source only ever tests the instance argument against NULL, so
it is modelled by `instancePresent`. -/
def vkGetInstanceProcAddr (instancePresent : Bool) (pName : String) : Option String :=
  if !instancePresent && !(pName ∈ preInstanceNames) then
    none
  else if pName ∈ instanceProcTable then
    some pName
  else
    none

/-- The block of names `vkGetDeviceProcAddr` refuses to resolve
(src/driver/device.c, lines 376-398), in source order. -/
def deviceProcBlockedNames : List String :=
  [ "vkDestroyInstance"
  , "vkEnumeratePhysicalDevices"
  , "vkGetPhysicalDeviceFeatures"
  , "vkGetPhysicalDeviceFormatProperties"
  , "vkGetPhysicalDeviceImageFormatProperties"
  , "vkGetPhysicalDeviceProperties"
  , "vkGetPhysicalDeviceQueueFamilyProperties"
  , "vkGetPhysicalDeviceMemoryProperties"
  , "vkCreateDevice"
  , "vkEnumerateDeviceExtensionProperties"
  , "vkEnumerateDeviceLayerProperties"
  , "vkGetPhysicalDeviceSparseImageFormatProperties"
  , "vkEnumeratePhysicalDeviceGroups"
  , "vkGetPhysicalDeviceFeatures2"
  , "vkGetPhysicalDeviceProperties2"
  , "vkGetPhysicalDeviceFormatProperties2"
  , "vkGetPhysicalDeviceImageFormatProperties2"
  , "vkGetPhysicalDeviceQueueFamilyProperties2"
  , "vkGetPhysicalDeviceMemoryProperties2"
  , "vkGetPhysicalDeviceSparseImageFormatProperties2"
  , "vkGetPhysicalDeviceExternalBufferProperties"
  , "vkGetPhysicalDeviceExternalFenceProperties"
  , "vkGetPhysicalDeviceExternalSemaphoreProperties" ]

/-- `vkGetDeviceProcAddr` (src/driver/device.c, lines 371-408): block the
listed names, otherwise delegate to
`vkGetInstanceProcAddr(d->dev->instance, pName)`. -/
def vkGetDeviceProcAddr (device : DeviceObj) (pName : String) : Option String :=
  if pName ∈ deviceProcBlockedNames then
    none
  else
    vkGetInstanceProcAddr (device.dev.inst).isSome pName

/-- Concrete created device used by the C9 witness: one queue family,
three queues requested for family 0 (this is
`vkCreateDevice [] 0 [] 1 [5] (fun _ => true) ⟨some 1⟩ …`'s output). -/
def devC9 : DeviceObj :=
  { addr := 0, dev := { inst := some 1 }
    numEnabledExtensions := 0, enabledExtensions := []
    enabledFeatures := []
    queues := [some (1, List.replicate 3 { lastEmitSeqno := 0, dev := none })]
    numQueues := [3] }

/-- Concrete device handle used by the C10 witness: owning instance
present, some extension and feature state enabled. -/
def devC10a : DeviceObj :=
  { addr := 4, dev := { inst := some 1 }
    numEnabledExtensions := 1, enabledExtensions := [0]
    enabledFeatures := [true], queues := [none], numQueues := [0] }

/-- Second concrete device handle for the C10 witness: different address,
different owning instance, different enabled extensions and features. -/
def devC10b : DeviceObj :=
  { addr := 9, dev := { inst := some 2 }
    numEnabledExtensions := 0, enabledExtensions := []
    enabledFeatures := [false], queues := [none], numQueues := [0] }

/-- Concrete valid device handle used by the C5 counterexample and
witness. -/
def devC5 : DeviceObj :=
  { addr := 2, dev := { inst := some 1 }
    numEnabledExtensions := 0, enabledExtensions := []
    enabledFeatures := [], queues := [none], numQueues := [0] }

/-- Invariant of the `queues`/`numQueues` arrays of a device built by
`vkCreateDevice`: the arrays have equal length, every allocated per-family
array's recorded count equals its length, and every record in it is a
fresh queue (sequence counter 0, back-pointer unwritten). -/
def DevQueuesOk (dev : DeviceObj) : Prop :=
  dev.numQueues.length = dev.queues.length ∧
  ∀ f a arr, dev.queues.getD f none = some (a, arr) →
    dev.numQueues.getD f 0 = arr.length ∧
    ∀ q ∈ arr, q = { lastEmitSeqno := 0, dev := none }

/-! Helper lemmas. -/

theorem toInt32_of_lt (n : Nat) (h : n < 2 ^ 31) : toInt32 n = (n : Int) := by
  have h32 : n < 2 ^ 32 := lt_trans h (by norm_num)
  unfold toInt32
  rw [Nat.mod_eq_of_lt h32, if_pos h]

theorem getD_replicate {α : Type} (n f : Nat) (d : α) :
    (List.replicate n d).getD f d = d := by
  induction n generalizing f with
  | zero => simp [List.getD]
  | succ m ih =>
    cases f with
    | zero => rfl
    | succ f => exact ih f

theorem getD_set_self {α : Type} (l : List α) (i : Nat) (a d : α)
    (h : i < l.length) : (l.set i a).getD i d = a := by
  induction l generalizing i with
  | nil => simp at h
  | cons x xs ih =>
    cases i with
    | zero => rfl
    | succ i => exact ih i (by simpa using h)

theorem getD_set_ne {α : Type} (l : List α) (i j : Nat) (a d : α)
    (h : j ≠ i) : (l.set i a).getD j d = l.getD j d := by
  induction l generalizing i j with
  | nil => rfl
  | cons x xs ih =>
    cases i with
    | zero =>
      cases j with
      | zero => exact absurd rfl h
      | succ j => rfl
    | succ i =>
      cases j with
      | zero => rfl
      | succ j => exact ih i j (fun hh => h (by rw [hh]))

theorem set_of_length_le {α : Type} (l : List α) (i : Nat) (a : α)
    (h : l.length ≤ i) : l.set i a = l := by
  induction l generalizing i with
  | nil => rfl
  | cons x xs ih =>
    cases i with
    | zero => simp at h
    | succ i =>
      show x :: xs.set i a = x :: xs
      rw [ih i (by simpa using h)]

theorem instExtLoop_ok_iff (registry : List String) (l : List String) :
    (instExtLoop registry l).2 = true ↔
      ∀ e ∈ l, (findInstanceExtension registry e).isSome := by
  induction l with
  | nil => simp [instExtLoop]
  | cons e rest ih =>
    cases hfe : findInstanceExtension registry e with
    | none =>
      simp only [instExtLoop, hfe]
      constructor
      · intro hcontra; exact absurd hcontra (by simp)
      · intro hall
        have := hall e (by simp)
        rw [hfe] at this
        exact absurd this (by simp)
    | some i =>
      simp only [instExtLoop, hfe]
      rw [ih]
      constructor
      · intro hall x hx
        rcases List.mem_cons.mp hx with hx | hx
        · rw [hx, hfe]; rfl
        · exact hall x hx
      · intro hall x hx
        exact hall x (List.mem_cons_of_mem e hx)

theorem deviceQueueLoop_fields (allocOk : Nat → Bool)
    (l : List QueueCreateInfo) (dev : DeviceObj) (k : Nat) :
    ((deviceQueueLoop allocOk l dev k).2.1).enabledFeatures = dev.enabledFeatures ∧
    ((deviceQueueLoop allocOk l dev k).2.1).addr = dev.addr := by
  induction l generalizing dev k with
  | nil => exact ⟨rfl, rfl⟩
  | cons qci rest ih =>
    by_cases hA : allocOk k = true
    · simp only [deviceQueueLoop, hA, Bool.not_true, Bool.false_eq_true, if_false]
      exact ih _ _
    · simp [deviceQueueLoop, Bool.eq_false_iff.mpr hA]

theorem deviceQueueLoop_fail (allocOk : Nat → Bool) (l : List QueueCreateInfo)
    (dev : DeviceObj) (k0 : Nat)
    (h : ∃ j, j < l.length ∧ allocOk (k0 + j) = false) :
    (deviceQueueLoop allocOk l dev k0).1 = .VK_ERROR_OUT_OF_HOST_MEMORY := by
  induction l generalizing dev k0 with
  | nil =>
    obtain ⟨j, hj, _⟩ := h
    simp at hj
  | cons qci rest ih =>
    by_cases hA : allocOk k0 = true
    · simp only [deviceQueueLoop, hA, Bool.not_true, Bool.false_eq_true, if_false]
      apply ih
      obtain ⟨j, hj, hfail⟩ := h
      cases j with
      | zero =>
        rw [Nat.add_zero, hA] at hfail
        exact absurd hfail (by simp)
      | succ j =>
        refine ⟨j, by simpa using hj, ?_⟩
        have harith : k0 + 1 + j = k0 + (j + 1) := by omega
        rw [harith]
        exact hfail
    · simp only [deviceQueueLoop, Bool.eq_false_iff.mpr hA, Bool.not_false, if_true]

theorem devQueuesOk_of_replicate (dev : DeviceObj) (n : Nat)
    (hq : dev.queues = List.replicate n none)
    (hl : dev.numQueues.length = n) : DevQueuesOk dev := by
  refine ⟨by rw [hq, hl, List.length_replicate], ?_⟩
  intro f a arr hx
  rw [hq, getD_replicate] at hx
  exact Option.noConfusion hx

theorem devQueuesOk_set_pair (dev : DeviceObj) (f k n : Nat)
    (h : DevQueuesOk dev) :
    DevQueuesOk { dev with
      queues := dev.queues.set f
        (some (k, List.replicate n { lastEmitSeqno := 0, dev := none })),
      numQueues := dev.numQueues.set f n } := by
  obtain ⟨hlen, hinv⟩ := h
  refine ⟨by simp [hlen], ?_⟩
  intro x a arr hx
  dsimp only at hx ⊢
  by_cases hfl : f < dev.queues.length
  · have hfl2 : f < dev.numQueues.length := by rw [hlen]; exact hfl
    by_cases hxf : x = f
    · subst hxf
      rw [getD_set_self _ _ _ _ hfl] at hx
      injection hx with h1
      have h2 := congrArg Prod.fst h1
      have h3 := congrArg Prod.snd h1
      simp only at h2 h3
      subst h2
      subst h3
      constructor
      · rw [getD_set_self _ _ _ _ hfl2]
        simp
      · intro q hq
        exact List.eq_of_mem_replicate hq
    · rw [getD_set_ne _ _ _ _ _ hxf] at hx
      rw [getD_set_ne _ _ _ _ _ hxf]
      exact hinv x a arr hx
  · have hle : dev.queues.length ≤ f := le_of_not_lt hfl
    have hle2 : dev.numQueues.length ≤ f := by rw [hlen]; exact hle
    rw [set_of_length_le _ _ _ hle] at hx
    rw [set_of_length_le _ _ _ hle2]
    exact hinv x a arr hx

theorem devQueuesOk_set_none (dev : DeviceObj) (f : Nat)
    (h : DevQueuesOk dev) :
    DevQueuesOk { dev with queues := dev.queues.set f none } := by
  obtain ⟨hlen, hinv⟩ := h
  refine ⟨by simp [hlen], ?_⟩
  intro x a arr hx
  dsimp only at hx ⊢
  by_cases hfl : f < dev.queues.length
  · by_cases hxf : x = f
    · subst hxf
      rw [getD_set_self _ _ _ _ hfl] at hx
      exact Option.noConfusion hx
    · rw [getD_set_ne _ _ _ _ _ hxf] at hx
      exact hinv x a arr hx
  · rw [set_of_length_le _ _ _ (le_of_not_lt hfl)] at hx
    exact hinv x a arr hx

theorem deviceQueueLoop_inv (allocOk : Nat → Bool) (l : List QueueCreateInfo)
    (dev : DeviceObj) (k : Nat) (h : DevQueuesOk dev) :
    DevQueuesOk ((deviceQueueLoop allocOk l dev k).2.1) := by
  induction l generalizing dev k with
  | nil => exact h
  | cons qci rest ih =>
    by_cases hA : allocOk k = true
    · simp only [deviceQueueLoop, hA, Bool.not_true, Bool.false_eq_true, if_false]
      exact ih _ _ (devQueuesOk_set_pair dev qci.queueFamilyIndex k qci.queueCount h)
    · simp only [deviceQueueLoop, Bool.eq_false_iff.mpr hA, Bool.not_false, if_true]
      exact devQueuesOk_set_none dev qci.queueFamilyIndex h

/-! Claim theorems. -/

/-- C1: the claim says every enumeration operation of this layer returns
the partial-success code exactly when the capacity is below the total.
Evaluating the code at a non-NULL buffer of capacity 0 against a one-entry
registry shows the device-extension enumeration writes `min(T,C) = 0`
items and sets the count to 0 but still returns `VK_SUCCESS`, while the
instance-extension sibling returns `VK_INCOMPLETE` on the same shape of
input — the device-side code dropped the `arraySize < total` check its
sibling has. -/
theorem c1_device_enumeration_no_incomplete :
    vkEnumerateDeviceExtensionProperties ["VK_KHR_swapchain"] 0 true =
      { count := 0, written := [], result := .VK_SUCCESS } ∧
    vkEnumerateInstanceExtensionProperties ["VK_KHR_surface"] 0 true =
      { count := 0, written := [], result := .VK_INCOMPLETE } := by
  constructor <;> decide

/-- C4: the claim says destroying a device frees each allocated per-family
queue array exactly once, then the device object, and nothing else.
Evaluating the code on a device successfully created with one queue family
and a request for 2 queues in family 0: the destroy loop frees
`dev->queues[d]` for `d = 0, 1` (the inner loop indexes `queues` with the
queue index `d`, not the family index `c`), so it frees the family-0 array
once and then reads past the one-element `queues` array and frees whatever
that out-of-bounds slot holds — not the claimed "exactly the allocated
arrays, once each". -/
theorem c4_destroyDevice_frees_wrong_slots :
    (vkCreateDevice [] 0 [] 1 [7] (fun _ => true) { inst := some 1 }
        { ppEnabledExtensionNames := []
          pEnabledFeatures := none
          pQueueCreateInfos := [{ queueFamilyIndex := 0, queueCount := 2 }] }).pDevice.map
      (vkDestroyDevice 1) =
    some [FreeTarget.queueArray 1, FreeTarget.outOfBounds 1, FreeTarget.deviceObject] := by
  decide

/-- C6: the claim says a non-NULL-buffer call writes at most one group
entry. Evaluating the code at capacity 2 with a valid instance: the loop
fills both buffer slots with the single group and leaves the count cell
untouched at 2 (the NULL-buffer half of the claim does hold and is also
evaluated). -/
theorem c6_enumerateGroups_fills_capacity :
    vkEnumeratePhysicalDeviceGroups 9 2 true =
      { count := 2
        written :=
          [ { physicalDeviceCount := 1, physicalDevice0 := 9, subsetAllocation := false }
          , { physicalDeviceCount := 1, physicalDevice0 := 9, subsetAllocation := false } ]
        result := .VK_SUCCESS } ∧
    vkEnumeratePhysicalDeviceGroups 9 5 false =
      { count := 1, written := [], result := .VK_SUCCESS } := by
  constructor <;> rfl

/-- C10: device-scoped entry-point resolution depends only on the name:
for any two device handles whose owning instances exist (non-NULL
`d->dev->instance`), `vkGetDeviceProcAddr` returns the same pointer — the
code never reads the device's enabled extensions, features, or any other
per-device state. -/
theorem c10_deviceProcAddr_handle_independent (d1 d2 : DeviceObj) (pName : String)
    (h1 : (d1.dev.inst).isSome = true) (h2 : (d2.dev.inst).isSome = true) :
    vkGetDeviceProcAddr d1 pName = vkGetDeviceProcAddr d2 pName := by
  unfold vkGetDeviceProcAddr
  rw [h1, h2]

theorem c10_witness :
    vkGetDeviceProcAddr devC10a "vkQueueSubmit" =
      vkGetDeviceProcAddr devC10b "vkQueueSubmit" :=
  c10_deviceProcAddr_handle_independent devC10a devC10b "vkQueueSubmit" rfl rfl

/-- C5 counterexample: resolving "vkCreateInstance" through the
device-scoped resolver with a valid device handle does NOT return null —
the name is absent from the source's blocked-name list, so the call falls
through to the instance-scoped resolver and resolves. -/
theorem c5_counterexample :
    vkGetDeviceProcAddr devC5 "vkCreateInstance" ≠ none := by
  decide

/-- C5 (amended): every name in the source's fixed blocked list (instance
destruction, physical-device enumeration and queries, device creation,
device extension/layer enumeration, group enumeration) resolves to null
through the device-scoped resolver for every device handle, and resolving
"vkCreateInstance" through the instance-scoped resolver with a NULL
instance succeeds; but "vkCreateInstance" itself is not in the blocked
list and resolves (non-null) through the device-scoped path as well. -/
theorem c5_resolver_scoping (device : DeviceObj) (pName : String)
    (h : pName ∈ deviceProcBlockedNames) :
    vkGetDeviceProcAddr device pName = none ∧
    vkGetInstanceProcAddr false "vkCreateInstance" = some "vkCreateInstance" ∧
    vkGetDeviceProcAddr device "vkCreateInstance" = some "vkCreateInstance" := by
  refine ⟨?_, by decide, ?_⟩
  · unfold vkGetDeviceProcAddr
    rw [if_pos h]
  · unfold vkGetDeviceProcAddr
    rw [if_neg (by decide)]
    cases hb : (device.dev.inst).isSome <;> decide

theorem c5_witness :
    vkGetDeviceProcAddr devC5 "vkDestroyInstance" = none ∧
    vkGetInstanceProcAddr false "vkCreateInstance" = some "vkCreateInstance" ∧
    vkGetDeviceProcAddr devC5 "vkCreateInstance" = some "vkCreateInstance" :=
  c5_resolver_scoping devC5 "vkDestroyInstance" (by decide)

/-- C8 counterexample: the claim says any capacity of at least 1 with a
non-NULL buffer yields count 1, the device handle, and full success; but
the code reads the `uint32_t` capacity into a signed 32-bit `int`, so at
capacity 2^31 it writes no handle, stores 2^31 back into the count cell,
and returns `VK_INCOMPLETE`. -/
theorem c8_counterexample :
    vkEnumeratePhysicalDevices 3 (2 ^ 31) true =
      { count := 2 ^ 31, written := [], result := .VK_INCOMPLETE } := by
  decide

/-- C8 (amended): for capacities below 2^31 (the capacity is read through
a signed 32-bit `int`), `vkEnumeratePhysicalDevices` follows the claim: a
NULL buffer yields count 1 and full success regardless of capacity; a
non-NULL buffer of capacity 0 yields count 0 and partial success; a
non-NULL buffer of capacity at least 1 yields count 1, the one
physical-device handle, and full success. -/
theorem c8_enumeratePhysicalDevices_protocol (instAddr : Nat) (pCount : Nat)
    (h : pCount < 2 ^ 31) :
    vkEnumeratePhysicalDevices instAddr pCount false =
      { count := 1, written := [], result := .VK_SUCCESS } ∧
    vkEnumeratePhysicalDevices instAddr 0 true =
      { count := 0, written := [], result := .VK_INCOMPLETE } ∧
    (1 ≤ pCount →
      vkEnumeratePhysicalDevices instAddr pCount true =
        { count := 1, written := [instAddr], result := .VK_SUCCESS }) := by
  refine ⟨rfl, rfl, ?_⟩
  intro h1
  have hcast : (1 : Int) ≤ (pCount : Int) := by exact_mod_cast h1
  show ({ count := toUInt32 (min 1 (toInt32 pCount))
          written := List.replicate (min 1 (toInt32 pCount)).toNat instAddr
          result := if toInt32 pCount < 1 then .VK_INCOMPLETE else .VK_SUCCESS } : EnumOut Nat) = _
  rw [toInt32_of_lt pCount h, min_eq_left hcast, if_neg (not_lt.mpr hcast)]
  rfl

theorem c8_witness :
    vkEnumeratePhysicalDevices 3 1 true =
      { count := 1, written := [3], result := .VK_SUCCESS } :=
  (c8_enumeratePhysicalDevices_protocol 3 1 (by decide)).2.2 (by decide)

/-- C2 counterexample: a create-instance request whose only extension name
is unknown does return the extension-not-present error and no hardware
probing occurs, but the output handle has already been set to the freshly
allocated (partial, never-freed) instance object — contradicting the
claim's "produces no partial Instance, leaves the output handle unset, and
has zero side effects". -/
theorem c2_counterexample :
    vkCreateInstance ["VK_KHR_surface"] true 7 true true
      { chipVersion := 0, hasTiling := false, hasControlFlow := false
        hasEtc1 := false, hasThreadedFs := false, hasMadvise := false }
      { enabledLayerCount := 0, ppEnabledExtensionNames := ["VK_KHR_bogus"] } =
    COutcome.ret
      { result := .VK_ERROR_EXTENSION_NOT_PRESENT
        pInstance := some
          { addr := 7, devInst := none, numEnabledExtensions := 0
            enabledExtensions := [], snapshot := none }
        probed := false, allocCount := 1 } := by
  decide

/-- C2 (amended): for every create-instance request with an empty layer
list whose extension list contains an unknown name, and whose instance
allocation succeeds, the code returns the extension-not-present error
before any hardware probing occurs — but only after the Instance object
has been allocated and stored into the output handle; the partial
instance (holding the registry indices of the known names preceding the
first unknown one, and no capability snapshot) is left behind, not
freed. -/
theorem c2_createInstance_rejects_unknown_extension (registry : List String)
    (instAddr : Nat) (gpuPresent ioctlOk : Bool) (snap : Snapshot)
    (info : InstanceCreateInfo)
    (hlayers : info.enabledLayerCount = 0)
    (hmiss : ∃ e ∈ info.ppEnabledExtensionNames,
      findInstanceExtension registry e = none) :
    vkCreateInstance registry true instAddr gpuPresent ioctlOk snap info =
      COutcome.ret
        { result := .VK_ERROR_EXTENSION_NOT_PRESENT
          pInstance := some
            { addr := instAddr, devInst := none
              numEnabledExtensions :=
                (instExtLoop registry info.ppEnabledExtensionNames).1.length
              enabledExtensions := (instExtLoop registry info.ppEnabledExtensionNames).1
              snapshot := none }
          probed := false, allocCount := 1 } := by
  have hfail : (instExtLoop registry info.ppEnabledExtensionNames).2 = false := by
    rcases hmiss with ⟨e, he, hm⟩
    cases hb : (instExtLoop registry info.ppEnabledExtensionNames).2
    · rfl
    · have := (instExtLoop_ok_iff registry info.ppEnabledExtensionNames).mp hb e he
      rw [hm] at this
      exact absurd this (by simp)
  simp only [vkCreateInstance, hlayers, hfail]
  rfl

theorem c2_witness :
    vkCreateInstance ["VK_KHR_surface"] true 7 false false
      { chipVersion := 0, hasTiling := false, hasControlFlow := false
        hasEtc1 := false, hasThreadedFs := false, hasMadvise := false }
      { enabledLayerCount := 0
        ppEnabledExtensionNames := ["VK_KHR_surface", "VK_KHR_bogus"] } =
      COutcome.ret
        { result := .VK_ERROR_EXTENSION_NOT_PRESENT
          pInstance := some
            { addr := 7, devInst := none, numEnabledExtensions := 1
              enabledExtensions := [0], snapshot := none }
          probed := false, allocCount := 1 } := by
  have h := c2_createInstance_rejects_unknown_extension ["VK_KHR_surface"] 7 false false
    { chipVersion := 0, hasTiling := false, hasControlFlow := false
      hasEtc1 := false, hasThreadedFs := false, hasMadvise := false }
    { enabledLayerCount := 0
      ppEnabledExtensionNames := ["VK_KHR_surface", "VK_KHR_bogus"] }
    rfl ⟨"VK_KHR_bogus", by decide, by decide⟩
  exact h

/-- C3: `vkCreateDevice` validates all requested extension names and all
requested feature bits before performing any allocation: (1) a request
with any unknown extension name fails with extension-not-present, with no
`ALLOCATE` call made and the output handle untouched; (2) a request whose
extensions are all known but which asks for an unsupported feature bit
fails with feature-not-present, again with no allocation; (3) when no
feature set is given, every feature of the created device is disabled. -/
theorem c3_createDevice_validates_before_allocation
    (deviceExtensions : List String) (numFeatures : Nat) (supported : List Bool)
    (nqf : Nat) (g : List Nat) (allocOk : Nat → Bool)
    (pd : PhysicalDeviceRef) (info : DeviceCreateInfo) :
    ((∃ e ∈ info.ppEnabledExtensionNames,
        findDeviceExtension deviceExtensions e = none) →
      vkCreateDevice deviceExtensions numFeatures supported nqf g allocOk pd info =
        { result := .VK_ERROR_EXTENSION_NOT_PRESENT, handleWritten := false
          pDevice := none, allocCount := 0 }) ∧
    ((∀ e ∈ info.ppEnabledExtensionNames,
        (findDeviceExtension deviceExtensions e).isSome) →
      ∀ req, info.pEnabledFeatures = some req →
      (∃ c, c < numFeatures ∧ req.getD c false = true ∧
        supported.getD c false = false) →
      vkCreateDevice deviceExtensions numFeatures supported nqf g allocOk pd info =
        { result := .VK_ERROR_FEATURE_NOT_PRESENT, handleWritten := false
          pDevice := none, allocCount := 0 }) ∧
    (info.pEnabledFeatures = none →
      ∀ dev,
      (vkCreateDevice deviceExtensions numFeatures supported nqf g allocOk pd info).pDevice
        = some dev →
      dev.enabledFeatures = List.replicate numFeatures false) := by
  refine ⟨?_, ?_, ?_⟩
  · intro hex
    have hall : info.ppEnabledExtensionNames.all
        (fun e => (findDeviceExtension deviceExtensions e).isSome) = false := by
      rcases hex with ⟨e, he, hm⟩
      rw [List.all_eq_false]
      exact ⟨e, he, by simp [hm]⟩
    simp only [vkCreateDevice, hall]
    rfl
  · intro hall req hreq hbad
    have hallt : info.ppEnabledExtensionNames.all
        (fun e => (findDeviceExtension deviceExtensions e).isSome) = true := by
      rw [List.all_eq_true]
      intro e he
      exact hall e he
    have hbadb : featureRequestBad numFeatures req supported = true := by
      unfold featureRequestBad
      rw [List.any_eq_true]
      rcases hbad with ⟨c, hc, h1, h2⟩
      exact ⟨c, List.mem_range.mpr hc, by rw [h1, h2]; rfl⟩
    simp only [vkCreateDevice, hallt, hreq, hbadb]
    rfl
  · intro hnone dev hdev
    by_cases hA : info.ppEnabledExtensionNames.all
        (fun e => (findDeviceExtension deviceExtensions e).isSome) = true
    · by_cases hC : allocOk 0 = true
      · simp only [vkCreateDevice, hA, hnone, hC] at hdev
        simp only [Bool.not_true, Bool.false_eq_true, if_false, Bool.not_false,
          if_true] at hdev
        have hdev' : (deviceQueueLoop allocOk info.pQueueCreateInfos
            { addr := 0, dev := pd
              numEnabledExtensions :=
                (info.ppEnabledExtensionNames.filterMap
                  (findDeviceExtension deviceExtensions)).length
              enabledExtensions :=
                info.ppEnabledExtensionNames.filterMap
                  (findDeviceExtension deviceExtensions)
              enabledFeatures := List.replicate numFeatures false
              queues := List.replicate nqf none
              numQueues := g } 1).2.1 = dev := by
          simpa using hdev
        rw [← hdev']
        exact (deviceQueueLoop_fields allocOk info.pQueueCreateInfos _ 1).1
      · have hC' : allocOk 0 = false := Bool.eq_false_iff.mpr hC
        simp only [vkCreateDevice, hA, hnone, hC'] at hdev
        simp at hdev
    · have hA' : info.ppEnabledExtensionNames.all
          (fun e => (findDeviceExtension deviceExtensions e).isSome) = false :=
        Bool.eq_false_iff.mpr hA
      simp only [vkCreateDevice, hA'] at hdev
      simp at hdev

theorem c3_witness :
    vkCreateDevice ["VK_KHR_swapchain"] 2 [true, false] 1 [0] (fun _ => true)
      { inst := some 1 }
      { ppEnabledExtensionNames := ["VK_KHR_bogus"], pEnabledFeatures := none
        pQueueCreateInfos := [] } =
      { result := .VK_ERROR_EXTENSION_NOT_PRESENT, handleWritten := false
        pDevice := none, allocCount := 0 } :=
  (c3_createDevice_validates_before_allocation ["VK_KHR_swapchain"] 2 [true, false]
      1 [0] (fun _ => true) { inst := some 1 }
      { ppEnabledExtensionNames := ["VK_KHR_bogus"], pEnabledFeatures := none
        pQueueCreateInfos := [] }).1
    ⟨"VK_KHR_bogus", by decide, by decide⟩

/-- C7: allocation failures map to distinct codes by granularity —
failing to allocate the Instance object yields out-of-host-memory; with a
fully valid request, failing to allocate the Device object yields
too-many-objects; and with the Device object allocated, failing any
per-family queue-array allocation yields out-of-host-memory. -/
theorem c7_allocation_failure_codes
    (iRegistry : List String) (instAddr : Nat) (gpuPresent ioctlOk : Bool)
    (snap : Snapshot) (iInfo : InstanceCreateInfo)
    (deviceExtensions : List String) (numFeatures : Nat) (supported : List Bool)
    (nqf : Nat) (g : List Nat) (allocOk : Nat → Bool)
    (pd : PhysicalDeviceRef) (dInfo : DeviceCreateInfo) :
    vkCreateInstance iRegistry false instAddr gpuPresent ioctlOk snap iInfo =
      COutcome.ret { result := .VK_ERROR_OUT_OF_HOST_MEMORY, pInstance := none
                     probed := false, allocCount := 1 } ∧
    ((dInfo.ppEnabledExtensionNames.all
        (fun e => (findDeviceExtension deviceExtensions e).isSome)) = true →
     (match dInfo.pEnabledFeatures with
      | some req => featureRequestBad numFeatures req supported
      | none => false) = false →
     allocOk 0 = false →
     vkCreateDevice deviceExtensions numFeatures supported nqf g allocOk pd dInfo =
       { result := .VK_ERROR_TOO_MANY_OBJECTS, handleWritten := true
         pDevice := none, allocCount := 1 }) ∧
    ((dInfo.ppEnabledExtensionNames.all
        (fun e => (findDeviceExtension deviceExtensions e).isSome)) = true →
     (match dInfo.pEnabledFeatures with
      | some req => featureRequestBad numFeatures req supported
      | none => false) = false →
     allocOk 0 = true →
     (∃ j, j < dInfo.pQueueCreateInfos.length ∧ allocOk (j + 1) = false) →
     (vkCreateDevice deviceExtensions numFeatures supported nqf g allocOk pd dInfo).result =
       .VK_ERROR_OUT_OF_HOST_MEMORY) := by
  refine ⟨rfl, ?_, ?_⟩
  · intro hA hB hC
    simp only [vkCreateDevice, hA, hB, hC]
    rfl
  · intro hA hB hC hEx
    simp only [vkCreateDevice, hA, hB, hC]
    simp only [Bool.not_true, Bool.false_eq_true, if_false, Bool.not_false, if_true]
    apply deviceQueueLoop_fail
    rcases hEx with ⟨j, hj, hf⟩
    refine ⟨j, hj, ?_⟩
    have harith : 1 + j = j + 1 := by omega
    rw [harith]
    exact hf

theorem c7_witness :
    vkCreateDevice [] 0 [] 1 [0] (fun _ => false) { inst := some 1 }
      { ppEnabledExtensionNames := [], pEnabledFeatures := none
        pQueueCreateInfos := [] } =
      { result := .VK_ERROR_TOO_MANY_OBJECTS, handleWritten := true
        pDevice := none, allocCount := 1 } :=
  (c7_allocation_failure_codes [] 0 true true
      { chipVersion := 0, hasTiling := false, hasControlFlow := false
        hasEtc1 := false, hasThreadedFs := false, hasMadvise := false }
      { enabledLayerCount := 0, ppEnabledExtensionNames := [] }
      [] 0 [] 1 [0] (fun _ => false) { inst := some 1 }
      { ppEnabledExtensionNames := [], pEnabledFeatures := none
        pQueueCreateInfos := [] }).2.1
    rfl rfl rfl

/-- C9: every queue record of a device built by `vkCreateDevice` is
created with its emission sequence counter (`lastEmitSeqno`) equal to 0,
and `vkGetDeviceQueue`, given a valid family index and a queue index below
that family's queue count as fixed at device creation, returns that
family's queue record with its back-pointer to the owning device
populated. -/
theorem c9_queue_init_and_getDeviceQueue
    (deviceExtensions : List String) (numFeatures : Nat) (supported : List Bool)
    (nqf : Nat) (g : List Nat) (allocOk : Nat → Bool)
    (pd : PhysicalDeviceRef) (info : DeviceCreateInfo)
    (hg : g.length = nqf) (dev : DeviceObj)
    (hdev : (vkCreateDevice deviceExtensions numFeatures supported nqf g allocOk pd info).pDevice
      = some dev)
    (hres : (vkCreateDevice deviceExtensions numFeatures supported nqf g allocOk pd info).result
      = .VK_SUCCESS) :
    (∀ f a arr, dev.queues.getD f none = some (a, arr) →
      ∀ q ∈ arr, q.lastEmitSeqno = 0) ∧
    (∀ f i a arr, f < nqf → dev.queues.getD f none = some (a, arr) →
      i < dev.numQueues.getD f 0 →
      vkGetDeviceQueue nqf dev f i =
        some { lastEmitSeqno := 0, dev := some dev.addr }) := by
  by_cases hA : info.ppEnabledExtensionNames.all
      (fun e => (findDeviceExtension deviceExtensions e).isSome) = true
  case neg =>
    have hA' := Bool.eq_false_iff.mpr hA
    simp only [vkCreateDevice, hA'] at hdev
    simp at hdev
  by_cases hB : (match info.pEnabledFeatures with
    | some req => featureRequestBad numFeatures req supported
    | none => false) = true
  case pos =>
    simp only [vkCreateDevice, hA, hB] at hdev hres
    simp only [Bool.not_true, Bool.false_eq_true, if_false, if_true] at hdev hres
    simp at hres
  have hB' := Bool.eq_false_iff.mpr hB
  by_cases hC : allocOk 0 = true
  case neg =>
    have hC' := Bool.eq_false_iff.mpr hC
    simp only [vkCreateDevice, hA, hB', hC'] at hdev
    simp at hdev
  simp only [vkCreateDevice, hA, hB', hC] at hdev
  simp only [Bool.not_true, Bool.false_eq_true, if_false, Bool.not_false, if_true] at hdev
  have hdev' : (deviceQueueLoop allocOk info.pQueueCreateInfos
      { addr := 0, dev := pd
        numEnabledExtensions :=
          (info.ppEnabledExtensionNames.filterMap
            (findDeviceExtension deviceExtensions)).length
        enabledExtensions :=
          info.ppEnabledExtensionNames.filterMap
            (findDeviceExtension deviceExtensions)
        enabledFeatures :=
          match info.pEnabledFeatures with
          | some req => copyFeatures numFeatures req
          | none => List.replicate numFeatures false
        queues := List.replicate nqf none
        numQueues := g } 1).2.1 = dev := by
    simpa using hdev
  have hinv : DevQueuesOk dev := by
    rw [← hdev']
    exact deviceQueueLoop_inv allocOk info.pQueueCreateInfos _ 1
      (devQueuesOk_of_replicate _ nqf rfl hg)
  refine ⟨?_, ?_⟩
  · intro f a arr hx q hq
    rw [(hinv.2 f a arr hx).2 q hq]
  · intro f i a arr hf hx hi
    have hnum := (hinv.2 f a arr hx).1
    have hi' : i < arr.length := by rw [← hnum]; exact hi
    unfold vkGetDeviceQueue
    rw [if_pos ⟨hf, hi⟩, hx]
    dsimp only
    rw [List.get?_eq_get hi', (hinv.2 f a arr hx).2 _ (arr.get_mem i hi')]
    rfl

theorem c9_witness :
    vkGetDeviceQueue 1 devC9 0 1 =
      some { lastEmitSeqno := 0, dev := some devC9.addr } :=
  (c9_queue_init_and_getDeviceQueue [] 0 [] 1 [5] (fun _ => true) { inst := some 1 }
      { ppEnabledExtensionNames := [], pEnabledFeatures := none
        pQueueCreateInfos := [{ queueFamilyIndex := 0, queueCount := 3 }] }
      rfl devC9 (by decide) (by decide)).2
    0 1 1 (List.replicate 3 { lastEmitSeqno := 0, dev := none })
    (by decide) (by decide) (by decide)

end RpiVK
